import Mathlib

/-!
Verification of the webhook signature-verification and event-dispatch
pipeline of the Vortex Fastify 5 SDK.

The transport adapter (`createVortexWebhookHandler`, `src/handlers/webhooks.ts`)
is embedded directly from the source.  The verifier, event constructor and
event dispatcher live in the external `vortex-node-22-sdk` package whose code
is not part of this repository; those are modelled from the specification
(sections 4.1-4.4) and are marked as such in their doc comments.

Bytes are modelled as natural numbers (meaningful values are `< 256`,
arithmetic is masked explicitly where it matters), JavaScript strings as
`List Char`, and 32-bit words as naturals reduced modulo `2 ^ 32`.
-/

/-- `2 ^ 32`, the modulus for 32-bit word arithmetic in SHA-256. -/
def M32 : Nat := 4294967296

/-- Right rotation of a 32-bit word by `n` bits. -/
def rotr32 (n x : Nat) : Nat := ((x >>> n) ||| ((x % M32) <<< (32 - n))) % M32

/-- SHA-256 big sigma 0. -/
def bsig0 (x : Nat) : Nat := (rotr32 2 x) ^^^ (rotr32 13 x) ^^^ (rotr32 22 x)

/-- SHA-256 big sigma 1. -/
def bsig1 (x : Nat) : Nat := (rotr32 6 x) ^^^ (rotr32 11 x) ^^^ (rotr32 25 x)

/-- SHA-256 small sigma 0. -/
def ssig0 (x : Nat) : Nat := (rotr32 7 x) ^^^ (rotr32 18 x) ^^^ (x >>> 3)

/-- SHA-256 small sigma 1. -/
def ssig1 (x : Nat) : Nat := (rotr32 17 x) ^^^ (rotr32 19 x) ^^^ (x >>> 10)

/-- The 64 SHA-256 round constants. -/
def K64 : List Nat :=
  [1116352408, 1899447441, 3049323471, 3921009573, 961987163,
   1508970993, 2453635748, 2870763221, 3624381080, 310598401,
   607225278, 1426881987, 1925078388, 2162078206, 2614888103,
   3248222580, 3835390401, 4022224774, 264347078, 604807628,
   770255983, 1249150122, 1555081692, 1996064986, 2554220882,
   2821834349, 2952996808, 3210313671, 3336571891, 3584528711,
   113926993, 338241895, 666307205, 773529912, 1294757372,
   1396182291, 1695183700, 1986661051, 2177026350, 2456956037,
   2730485921, 2820302411, 3259730800, 3345764771, 3516065817,
   3600352804, 4094571909, 275423344, 430227734, 506948616,
   659060556, 883997877, 958139571, 1322822218, 1537002063,
   1747873779, 1955562222, 2024104815, 2227730452, 2361852424,
   2428436474, 2756734187, 3204031479, 3329325298]

/-- The eight 32-bit words of a SHA-256 hash state. -/
structure Hash8 where
  h0 : Nat
  h1 : Nat
  h2 : Nat
  h3 : Nat
  h4 : Nat
  h5 : Nat
  h6 : Nat
  h7 : Nat

/-- The SHA-256 initial hash value. -/
def SHA256_H0 : Hash8 :=
  ⟨1779033703, 3144134277, 1013904242, 2773480762,
   1359893119, 2600822924, 528734635, 1541459225⟩

/-- The eight working registers of the SHA-256 compression loop. -/
structure Regs where
  a : Nat
  b : Nat
  c : Nat
  d : Nat
  e : Nat
  f : Nat
  g : Nat
  h : Nat

/-- One SHA-256 compression round; `kw` is the pair of round constant and
message-schedule word. -/
def sha256Round (r : Regs) (kw : Nat × Nat) : Regs :=
  let ch := (r.e &&& r.f) ^^^ ((r.e ^^^ (M32 - 1)) &&& r.g)
  let maj := (r.a &&& r.b) ^^^ (r.a &&& r.c) ^^^ (r.b &&& r.c)
  let t1 := (r.h + bsig1 r.e + ch + kw.1 + kw.2) % M32
  let t2 := (bsig0 r.a + maj) % M32
  ⟨(t1 + t2) % M32, r.a, r.b, r.c, (r.d + t1) % M32, r.e, r.f, r.g⟩

/-- Append the next message-schedule word to the word list. -/
def schedStep (ws : List Nat) : List Nat :=
  let l := ws.length
  ws ++ [(ssig1 (ws.getD (l - 2) 0) + ws.getD (l - 7) 0
          + ssig0 (ws.getD (l - 15) 0) + ws.getD (l - 16) 0) % M32]

/-- Extend the message schedule by `n` further words. -/
def sched (ws : List Nat) : Nat → List Nat
  | 0 => ws
  | n + 1 => sched (schedStep ws) n

/-- SHA-256 compression of one 16-word message block into the hash state. -/
def sha256Compress (H : Hash8) (block : List Nat) : Hash8 :=
  let ws := sched block 48
  let r := (K64.zip ws).foldl sha256Round ⟨H.h0, H.h1, H.h2, H.h3, H.h4, H.h5, H.h6, H.h7⟩
  ⟨(H.h0 + r.a) % M32, (H.h1 + r.b) % M32, (H.h2 + r.c) % M32, (H.h3 + r.d) % M32,
   (H.h4 + r.e) % M32, (H.h5 + r.f) % M32, (H.h6 + r.g) % M32, (H.h7 + r.h) % M32⟩

/-- Big-endian 8-byte encoding of a (64-bit) length value. -/
def lenBytes (n : Nat) : List Nat :=
  [(n >>> 56) % 256, (n >>> 48) % 256, (n >>> 40) % 256, (n >>> 32) % 256,
   (n >>> 24) % 256, (n >>> 16) % 256, (n >>> 8) % 256, n % 256]

/-- SHA-256 padding: append `0x80`, zero bytes up to 56 mod 64, then the
bit length in big-endian. -/
def padBytes (ms : List Nat) : List Nat :=
  let L := ms.length
  let z := (119 - L % 64) % 64
  ms ++ [128] ++ List.replicate z 0 ++ lenBytes (L * 8)

/-- Split a byte list into 64-byte blocks; the fuel argument (instantiated
with the list length, an upper bound on the number of blocks) makes the
recursion structural. -/
def toBlocksF : Nat → List Nat → List (List Nat)
  | _, [] => []
  | 0, _ => []
  | n + 1, b :: bs => ((b :: bs).take 64) :: toBlocksF n ((b :: bs).drop 64)

/-- Split a byte list into 64-byte blocks. -/
def toBlocks (bs : List Nat) : List (List Nat) := toBlocksF bs.length bs

/-- Combine bytes into big-endian 32-bit words, masking each byte. -/
def toWords : List Nat → List Nat
  | a :: b :: c :: d :: rest =>
      ((a % 256) * 16777216 + (b % 256) * 65536 + (c % 256) * 256 + (d % 256)) :: toWords rest
  | _ => []

/-- Big-endian 4-byte decomposition of a 32-bit word. -/
def wordBytes (w : Nat) : List Nat :=
  [(w >>> 24) % 256, (w >>> 16) % 256, (w >>> 8) % 256, w % 256]

/-- Serialize a hash state to its 32-byte digest. -/
def hashBytes (H : Hash8) : List Nat :=
  wordBytes H.h0 ++ wordBytes H.h1 ++ wordBytes H.h2 ++ wordBytes H.h3 ++
  wordBytes H.h4 ++ wordBytes H.h5 ++ wordBytes H.h6 ++ wordBytes H.h7

/-- Modelled from the spec: SHA-256 of a byte sequence (section 4.1 names
HMAC-SHA-256 as the keyed hash; the hash itself is standard FIPS 180-4
SHA-256, implemented here because the verifier lives in the external
`vortex-node-22-sdk` package, not in this repository). -/
def sha256 (ms : List Nat) : List Nat :=
  hashBytes ((toBlocks (padBytes ms)).foldl (fun h blk => sha256Compress h (toWords blk)) SHA256_H0)

/-- Modelled from the spec: HMAC-SHA-256 (RFC 2104) with a 64-byte block
size, the keyed hash required by section 4.1; the implementation in the
external `vortex-node-22-sdk` package is not part of this repository. -/
def hmacSha256 (key msg : List Nat) : List Nat :=
  let k0 := if 64 < key.length then sha256 key else key
  let kp := k0.map (· % 256) ++ List.replicate (64 - k0.length) 0
  sha256 ((kp.map (fun b => b ^^^ 92)) ++ sha256 ((kp.map (fun b => b ^^^ 54)) ++ msg))

/-- Lowercase hexadecimal digit for a nibble. -/
def hexDigit (n : Nat) : Char := if n < 10 then Char.ofNat (48 + n) else Char.ofNat (87 + n)

/-- Lowercase hexadecimal encoding of a byte sequence. -/
def hexEncode : List Nat → List Char
  | [] => []
  | b :: bs => hexDigit (b / 16 % 16) :: hexDigit (b % 16) :: hexEncode bs

/-- Modelled from the spec: constant-time comparison of two character
sequences (section 4.1 requires the comparison to be constant time, i.e. a
length check plus a bitwise-OR accumulation of per-position differences
with no early exit). -/
def ctEq (a b : List Char) : Bool :=
  (a.length == b.length) &&
    ((a.zip b).foldl (fun acc p => acc ||| (if p.1 == p.2 then 0 else 1)) 0 == 0)

/-- Modelled from the spec: `verify(rawPayload, signature, secret)` of
section 4.1 — hex-encode the HMAC-SHA-256 of the raw payload under the
secret and compare to the transmitted signature; the implementation lives
in the external `vortex-node-22-sdk` package. -/
def verify (rawPayload : List Nat) (signature : List Char) (secret : List Nat) : Bool :=
  ctEq (hexEncode (hmacSha256 secret rawPayload)) signature

/-- The `sign` helper of the repository's test suite
(`src/__tests__/handlers/webhooks.spec.ts`): the lowercase-hex
HMAC-SHA-256 digest of a payload under a secret. -/
def sign (payload : List Nat) (secret : List Nat) : List Char :=
  hexEncode (hmacSha256 secret payload)

/-- The verified, typed representation of a webhook delivery
(`VortexWebhookEvent` of the node SDK, shape as used by this repository's
tests: `id`, `type`, `timestamp`, `accountId`, optional `environmentId`,
`sourceTable`, `operation`, and an open-ended `data` payload). -/
structure WebhookEvent where
  id : String
  type : String
  timestamp : String
  accountId : String
  environmentId : Option String
  sourceTable : String
  operation : String
  data : String
deriving DecidableEq

/-- A JavaScript error value, observed by the adapter only through its
`name` (line 80 of the adapter discriminates on `err.name`) and message. -/
structure JsError where
  name : String
  message : String
deriving DecidableEq

/-- Which handler slot an invocation went to: the generic `onEvent` handler
or the type-specific handler registered under a type key. -/
inductive Slot where
  | generic
  | specific (t : String)
deriving DecidableEq

/-- Observable actions of one delivery, in order: a handler invocation
(with the event it received), a side effect performed by a handler, or an
invocation of the `onError` hook (with the error it received). -/
inductive TraceEntry where
  | call (slot : Slot) (e : WebhookEvent)
  | eff (s : String)
  | errHook (e : JsError)
deriving DecidableEq

/-- A registered event handler: given the event, it performs some side
effects (recorded as strings) and either returns normally (`none`) or
throws an error (`some err`). -/
def HandlerFn := WebhookEvent → List String × Option JsError

/-- The `WebhookHandlers` configuration: an optional generic handler, a
string-keyed map of type-specific handlers (keys unique), and whether an
`onError` hook is registered.  The `onError` hook is a notification sink;
its invocations are recorded as `TraceEntry.errHook` entries. -/
structure WebhookHandlers where
  onEvent : Option HandlerFn
  onMap : List (String × HandlerFn)
  onError : Bool

/-- Modelled from the spec: a configured `VortexWebhooks` instance of the
external `vortex-node-22-sdk` package — a shared secret (section 4.1)
together with the payload decoder of the event constructor (section 4.3).
The concrete wire format is conventional JSON and external to the core
contract, so the decoder is carried as a function returning the parsed
event, or `none` for a malformed payload. -/
structure VortexWebhooks where
  secret : List Nat
  decode : List Nat → Option WebhookEvent

/-- Modelled from the spec: `constructEvent` of the external node SDK
(section 4.3) — verify the signature first, then parse; a rejected
signature raises an error named `VortexWebhookSignatureError`, a malformed
verified payload raises a parse error. -/
def constructEvent (w : VortexWebhooks) (rawBody : List Nat) (signature : List Char) :
    Except JsError WebhookEvent :=
  if verify rawBody signature w.secret then
    match w.decode rawBody with
    | some e => Except.ok e
    | none => Except.error ⟨"VortexWebhookParseError", "Invalid webhook payload"⟩
  else
    Except.error ⟨"VortexWebhookSignatureError", "Invalid signature"⟩

/-- Run one handler: record its invocation, then its side effects, and
report whether it threw. -/
def runHandler (slot : Slot) (h : HandlerFn) (e : WebhookEvent) :
    List TraceEntry × Option JsError :=
  let r := h e
  (TraceEntry.call slot e :: r.1.map TraceEntry.eff, r.2)

/-- The `onError` notification: one `errHook` entry when the hook is
registered, nothing otherwise. -/
def onErrorTrace (handlers : WebhookHandlers) (err : JsError) : List TraceEntry :=
  if handlers.onError then [TraceEntry.errHook err] else []

/-- Modelled from the spec: `handleEvent` of the external node SDK, the
event dispatcher of section 4.4 — invoke the generic handler first (if
registered) and await it, then the type-specific handler keyed by
`event.type` (if registered); an unregistered type is not an error; a
handler's own failure is offered to `onError` and then propagated. -/
def handleEvent (e : WebhookEvent) (handlers : WebhookHandlers) :
    List TraceEntry × Option JsError :=
  let specificPart : List TraceEntry × Option JsError :=
    match handlers.onMap.lookup e.type with
    | some h => runHandler (Slot.specific e.type) h e
    | none => ([], none)
  match handlers.onEvent with
  | some g =>
    match runHandler Slot.generic g e with
    | (t, some err) => (t ++ onErrorTrace handlers err, some err)
    | (t, none) =>
      match specificPart with
      | (t2, some err) => (t ++ t2 ++ onErrorTrace handlers err, some err)
      | (t2, none) => (t ++ t2, none)
  | none =>
    match specificPart with
    | (t2, some err) => (t2 ++ onErrorTrace handlers err, some err)
    | (t2, none) => (t2, none)

/-- The `x-vortex-signature` header as Fastify presents it: absent, a
single string value, or an array of values. -/
inductive HeaderVal where
  | missing
  | one (s : List Char)
  | many (vs : List (List Char))
deriving DecidableEq

/-- The parsed request body as the adapter inspects it: a string left
unparsed by the transport, or anything that is not a string (a parsed
object, undefined, ...). -/
inductive BodyVal where
  | strBody (s : List Nat)
  | nonString
deriving DecidableEq

/-- The slice of a Fastify request the adapter reads: the signature
header, the optional captured raw body (`fastify-raw-body`), and the
request body. -/
structure FastifyRequest where
  signatureHeader : HeaderVal
  rawBody : Option (List Nat)
  body : BodyVal

/-- The JSON body the adapter sends: `{error: msg}` or `{received: true}`. -/
inductive ResponseBody where
  | errorBody (msg : String)
  | receivedTrue
deriving DecidableEq

/-- An HTTP response: status code plus body. -/
structure HttpResponse where
  status : Nat
  body : ResponseBody
deriving DecidableEq

/-- The operator-facing message of the raw-body-unavailable `500` response
(lines 65-72 of the adapter). -/
def rawBodyUnavailableMsg : String :=
  "Raw request body not available for signature verification. Ensure fastify-raw-body (or an equivalent raw body parser) is configured."

/-- Raw-payload resolution, lines 58-73 of `createVortexWebhookHandler`:
prefer the captured `rawBody` when attached (non-null), else a request
body the transport left as a string; otherwise unavailable. -/
def resolveRawBody (req : FastifyRequest) : Option (List Nat) :=
  match req.rawBody with
  | some raw => some raw
  | none =>
    match req.body with
    | BodyVal.strBody s => some s
    | BodyVal.nonString => none

/-- The `catch` block of the adapter, lines 79-87: a caught error named
`VortexWebhookSignatureError` is offered to `onError` (when registered)
and reported as `401 Invalid signature`; any other caught error is
reported as `500 Webhook handler error` without an adapter-level
`onError` call. -/
def catchBranch (handlers : WebhookHandlers) (err : JsError) :
    List TraceEntry × HttpResponse :=
  if err.name = "VortexWebhookSignatureError" then
    (onErrorTrace handlers err, ⟨401, ResponseBody.errorBody "Invalid signature"⟩)
  else
    ([], ⟨500, ResponseBody.errorBody "Webhook handler error"⟩)

/-- The Fastify route handler returned by `createVortexWebhookHandler`
(`src/handlers/webhooks.ts`, lines 40-88), as a function from the request
to the pair of the delivery's observable trace and the single response
written: array-valued header, then missing/empty header, then raw-body
resolution, then construct + dispatch inside `try`, with the `catch`
mapping of `catchBranch`. -/
def createVortexWebhookHandler (w : VortexWebhooks) (handlers : WebhookHandlers)
    (req : FastifyRequest) : List TraceEntry × HttpResponse :=
  match req.signatureHeader with
  | HeaderVal.many _ =>
    ([], ⟨400, ResponseBody.errorBody "Multiple X-Vortex-Signature headers are not allowed"⟩)
  | HeaderVal.missing =>
    ([], ⟨401, ResponseBody.errorBody "Missing X-Vortex-Signature header"⟩)
  | HeaderVal.one s =>
    if s.isEmpty then
      ([], ⟨401, ResponseBody.errorBody "Missing X-Vortex-Signature header"⟩)
    else
      match resolveRawBody req with
      | none => ([], ⟨500, ResponseBody.errorBody rawBodyUnavailableMsg⟩)
      | some raw =>
        match constructEvent w raw s with
        | Except.error err => catchBranch handlers err
        | Except.ok event =>
          match handleEvent event handlers with
          | (t, none) => (t, ⟨200, ResponseBody.receivedTrue⟩)
          | (t, some err) =>
            (t ++ (catchBranch handlers err).1, (catchBranch handlers err).2)

/-- Base-256 value of a byte list (big-endian). -/
def byteVal (l : List Nat) : Nat := l.foldl (fun a b => a * 256 + b) 0

/-- A sample webhook event, the shape delivered in the repository's tests. -/
def sampleEvent : WebhookEvent :=
  ⟨"evt_123", "invitation.accepted", "2026-02-25T12:00:00Z", "acc_456", some "env_789",
   "invitations", "update", "invitation data"⟩

/-- A single-byte mutation: same length, and exactly one position where
the byte differs. -/
def isSingleByteMutation (p q : List Nat) : Bool :=
  (p.length == q.length) && ((p.zip q).countP (fun ab => !(ab.1 == ab.2)) == 1)

/-- C9, stated as claimed: signing is deterministic and verification
accepts exactly under the signing secret — it rejects every other secret
and every single-byte mutation of the payload. -/
def C9Claim : Prop :=
  ∀ p s : List Nat,
    verify p (sign p s) s = true ∧
    (∀ s' : List Nat, s' ≠ s → verify p (sign p s) s' = false) ∧
    (∀ p' : List Nat, isSingleByteMutation p p' = true → verify p' (sign p s) s = false)

theorem sha256_length (ms : List Nat) : (sha256 ms).length = 32 := by
  simp [sha256, hashBytes, wordBytes]

theorem sha256_lt (ms : List Nat) : ∀ b ∈ sha256 ms, b < 256 := by
  intro b hb
  simp [sha256, hashBytes, wordBytes] at hb
  rcases hb with h | h | h | h | h | h | h | h <;> omega

theorem hmacSha256_length (k m : List Nat) : (hmacSha256 k m).length = 32 := by
  simp [hmacSha256, sha256_length]

theorem hmacSha256_lt (k m : List Nat) : ∀ b ∈ hmacSha256 k m, b < 256 := by
  simp only [hmacSha256]
  exact sha256_lt _

theorem hexEncode_length (bs : List Nat) : (hexEncode bs).length = 2 * bs.length := by
  induction bs with
  | nil => simp [hexEncode]
  | cons b bs ih => simp [hexEncode, ih]; omega

theorem lor_one_ne_zero (a : Nat) : a ||| 1 ≠ 0 := by
  intro h
  have hb : (a ||| 1).testBit 0 = true := by simp [Nat.testBit_lor]
  rw [h] at hb
  simp at hb

theorem ctFold_eq_zero (l : List (Char × Char)) (acc : Nat) :
    l.foldl (fun acc p => acc ||| (if p.1 == p.2 then 0 else 1)) acc = 0 ↔
      acc = 0 ∧ ∀ p ∈ l, p.1 = p.2 := by
  induction l generalizing acc with
  | nil => simp
  | cons p l ih =>
    rw [List.foldl_cons]
    by_cases hp : p.1 = p.2
    · have hc : (p.1 == p.2) = true := beq_iff_eq.mpr hp
      simp only [hc, if_true, Nat.or_zero]
      rw [ih]
      simp [List.forall_mem_cons, hp]
    · have hc : (p.1 == p.2) = false := by simp [hp]
      simp only [hc, if_false]
      rw [ih]
      constructor
      · rintro ⟨h, -⟩
        exact absurd h (lor_one_ne_zero acc)
      · rintro ⟨-, h⟩
        exact absurd (h p (List.mem_cons_self p l)) hp

theorem zip_forall_eq (a : List Char) :
    ∀ b : List Char, a.length = b.length → (∀ p ∈ a.zip b, p.1 = p.2) → a = b := by
  induction a with
  | nil =>
    intro b hl _
    cases b with
    | nil => rfl
    | cons y ys => simp at hl
  | cons x xs ih =>
    intro b hl hz
    cases b with
    | nil => simp at hl
    | cons y ys =>
      have hx : x = y := hz (x, y) (by simp)
      have hxs : xs = ys := by
        refine ih ys (by simpa using hl) ?_
        intro p hp
        exact hz p (by simp [hp])
      rw [hx, hxs]

theorem mem_zip_self (a : List Char) : ∀ p ∈ a.zip a, p.1 = p.2 := by
  induction a with
  | nil => simp
  | cons x xs ih =>
    intro p hp
    rw [List.zip_cons_cons] at hp
    rcases List.mem_cons.mp hp with rfl | hp'
    · rfl
    · exact ih p hp'

theorem ctEq_eq (a b : List Char) : ctEq a b = true ↔ a = b := by
  unfold ctEq
  rw [Bool.and_eq_true, beq_iff_eq, beq_iff_eq, ctFold_eq_zero]
  constructor
  · rintro ⟨hl, -, hz⟩
    exact zip_forall_eq a b hl hz
  · rintro rfl
    exact ⟨rfl, rfl, mem_zip_self a⟩

theorem ctEq_self (a : List Char) : ctEq a a = true := (ctEq_eq a a).mpr rfl

theorem verify_sign (p s : List Nat) : verify p (sign p s) s = true := by
  unfold verify sign
  exact ctEq_self _

theorem sign_length (p s : List Nat) : (sign p s).length = 64 := by
  unfold sign
  rw [hexEncode_length, hmacSha256_length]

theorem sign_isEmpty (p s : List Nat) : (sign p s).isEmpty = false := by
  cases hs : sign p s with
  | nil =>
    have h := sign_length p s
    rw [hs] at h
    simp at h
  | cons x xs => simp

theorem verify_of_length_ne (p : List Nat) (sig : List Char) (s : List Nat)
    (h : sig.length ≠ 64) : verify p sig s = false := by
  unfold verify ctEq
  have hl : (hexEncode (hmacSha256 s p)).length = 64 := by
    rw [hexEncode_length, hmacSha256_length]
  rw [hl]
  have : (64 == sig.length) = false := by
    simp
    omega
  rw [this]
  simp

theorem hexDigit_inj : ∀ a < 16, ∀ b < 16, hexDigit a = hexDigit b → a = b := by
  decide

theorem hexEncode_inj : ∀ a b : List Nat, (∀ x ∈ a, x < 256) → (∀ x ∈ b, x < 256) →
    hexEncode a = hexEncode b → a = b := by
  intro a
  induction a with
  | nil =>
    intro b _ _ h
    cases b with
    | nil => rfl
    | cons y ys => simp [hexEncode] at h
  | cons x xs ih =>
    intro b ha hb h
    cases b with
    | nil => simp [hexEncode] at h
    | cons y ys =>
      simp only [hexEncode, List.cons.injEq] at h
      obtain ⟨h1, h2, h3⟩ := h
      have hx : x < 256 := ha x (List.mem_cons_self x xs)
      have hy : y < 256 := hb y (List.mem_cons_self y ys)
      have e1 : x / 16 % 16 = y / 16 % 16 :=
        hexDigit_inj _ (Nat.mod_lt _ (by norm_num)) _ (Nat.mod_lt _ (by norm_num)) h1
      have e2 : x % 16 = y % 16 :=
        hexDigit_inj _ (Nat.mod_lt _ (by norm_num)) _ (Nat.mod_lt _ (by norm_num)) h2
      have hxy : x = y := by omega
      have : xs = ys := by
        refine ih ys ?_ ?_ h3
        · intro z hz
          exact ha z (List.mem_cons_of_mem _ hz)
        · intro z hz
          exact hb z (List.mem_cons_of_mem _ hz)
      rw [hxy, this]

theorem byteVal_foldl (l : List Nat) :
    ∀ a : Nat, l.foldl (fun a b => a * 256 + b) a = a * 256 ^ l.length + byteVal l := by
  induction l with
  | nil => intro a; simp [byteVal]
  | cons x xs ih =>
    intro a
    have hx : byteVal (x :: xs) = x * 256 ^ xs.length + byteVal xs := by
      unfold byteVal
      rw [List.foldl_cons, ih]
      simp [byteVal]
    rw [List.foldl_cons, ih, hx]
    simp [List.length_cons]
    ring

theorem byteVal_lt (l : List Nat) (h : ∀ x ∈ l, x < 256) : byteVal l < 256 ^ l.length := by
  induction l with
  | nil => simp [byteVal]
  | cons x xs ih =>
    have hx : x < 256 := h x (List.mem_cons_self x xs)
    have hxs : byteVal xs < 256 ^ xs.length := ih fun z hz => h z (List.mem_cons_of_mem _ hz)
    have hv : byteVal (x :: xs) = x * 256 ^ xs.length + byteVal xs := by
      unfold byteVal
      rw [List.foldl_cons, byteVal_foldl]
      simp [byteVal]
    rw [hv, List.length_cons]
    calc x * 256 ^ xs.length + byteVal xs < x * 256 ^ xs.length + 256 ^ xs.length :=
          Nat.add_lt_add_left hxs _
      _ = (x + 1) * 256 ^ xs.length := by ring
      _ ≤ 256 * 256 ^ xs.length := Nat.mul_le_mul_right _ (by omega)
      _ = 256 ^ (xs.length + 1) := by ring

theorem byteVal_inj : ∀ a b : List Nat, a.length = b.length →
    (∀ x ∈ a, x < 256) → (∀ x ∈ b, x < 256) → byteVal a = byteVal b → a = b := by
  intro a
  induction a with
  | nil =>
    intro b hl _ _ _
    cases b with
    | nil => rfl
    | cons y ys => simp at hl
  | cons x xs ih =>
    intro b hl ha hb hv
    cases b with
    | nil => simp at hl
    | cons y ys =>
      have hlen : xs.length = ys.length := by simpa using hl
      have hda : byteVal (x :: xs) = x * 256 ^ xs.length + byteVal xs := by
        unfold byteVal
        rw [List.foldl_cons, byteVal_foldl]
        simp [byteVal]
      have hdb : byteVal (y :: ys) = y * 256 ^ ys.length + byteVal ys := by
        unfold byteVal
        rw [List.foldl_cons, byteVal_foldl]
        simp [byteVal]
      rw [hda, hdb, ← hlen] at hv
      have hva : byteVal xs < 256 ^ xs.length :=
        byteVal_lt xs fun z hz => ha z (List.mem_cons_of_mem _ hz)
      have hvb : byteVal ys < 256 ^ xs.length := by
        rw [hlen]
        exact byteVal_lt ys fun z hz => hb z (List.mem_cons_of_mem _ hz)
      have hpos : 0 < 256 ^ xs.length := Nat.pos_pow_of_pos _ (by norm_num)
      have hxy : x = y := by
        have dx : (x * 256 ^ xs.length + byteVal xs) / 256 ^ xs.length = x := by
          rw [Nat.mul_comm, Nat.mul_add_div hpos]
          simp [Nat.div_eq_of_lt hva]
        have dy : (y * 256 ^ xs.length + byteVal ys) / 256 ^ xs.length = y := by
          rw [Nat.mul_comm, Nat.mul_add_div hpos]
          simp [Nat.div_eq_of_lt hvb]
        rw [← dx, ← dy, hv]
      have hvs : byteVal xs = byteVal ys := by
        rw [hxy] at hv
        omega
      have : xs = ys :=
        ih ys hlen (fun z hz => ha z (List.mem_cons_of_mem _ hz))
          (fun z hz => hb z (List.mem_cons_of_mem _ hz)) hvs
      rw [hxy, this]

theorem catchBranch_cases (hs : WebhookHandlers) (err : JsError) :
    catchBranch hs err =
      (onErrorTrace hs err, ⟨401, ResponseBody.errorBody "Invalid signature"⟩) ∨
    catchBranch hs err = ([], ⟨500, ResponseBody.errorBody "Webhook handler error"⟩) := by
  unfold catchBranch
  split
  · exact Or.inl rfl
  · exact Or.inr rfl

theorem catchBranch_eq (hs : WebhookHandlers) (err : JsError) :
    catchBranch hs err =
      if err.name = "VortexWebhookSignatureError" then
        (onErrorTrace hs err, ⟨401, ResponseBody.errorBody "Invalid signature"⟩)
      else ([], ⟨500, ResponseBody.errorBody "Webhook handler error"⟩) := rfl

theorem handleEvent_errHook (e : WebhookEvent) (hs : WebhookHandlers)
    (t : List TraceEntry) (err : JsError)
    (h : handleEvent e hs = (t, some err)) (hreg : hs.onError = true) :
    TraceEntry.errHook err ∈ t := by
  unfold handleEvent at h
  cases hg : hs.onEvent with
  | some g =>
    rw [hg] at h
    rcases hge : g e with ⟨gl, ger⟩
    simp only [runHandler, hge] at h
    cases ger with
    | some err' =>
      simp only [Prod.mk.injEq] at h
      obtain ⟨ht, herr⟩ := h
      cases herr
      rw [← ht]
      simp [onErrorTrace, hreg]
    | none =>
      cases hl : hs.onMap.lookup e.type with
      | some sp =>
        rw [hl] at h
        rcases hsp : sp e with ⟨sl, ser⟩
        simp only [runHandler, hsp] at h
        cases ser with
        | some err' =>
          simp only [Prod.mk.injEq] at h
          obtain ⟨ht, herr⟩ := h
          cases herr
          rw [← ht]
          simp [onErrorTrace, hreg]
        | none => simp at h
      | none =>
        rw [hl] at h
        simp at h
  | none =>
    rw [hg] at h
    cases hl : hs.onMap.lookup e.type with
    | some sp =>
      rw [hl] at h
      rcases hsp : sp e with ⟨sl, ser⟩
      simp only [runHandler, hsp] at h
      cases ser with
      | some err' =>
        simp only [Prod.mk.injEq] at h
        obtain ⟨ht, herr⟩ := h
        cases herr
        rw [← ht]
        simp [onErrorTrace, hreg]
      | none => simp at h
    | none =>
      rw [hl] at h
      simp at h

theorem count_map_eff (l : List String) (x : TraceEntry)
    (hx : ∀ s : String, x ≠ TraceEntry.eff s) :
    (l.map TraceEntry.eff).count x = 0 := by
  induction l with
  | nil => simp
  | cons s l ih =>
    rw [List.map_cons, List.count_cons]
    simp [ih, Ne.symm (hx s)]

theorem errHook_not_mem_map_eff (l : List String) (err : JsError) :
    TraceEntry.errHook err ∉ l.map TraceEntry.eff := by
  intro h
  rcases List.mem_map.mp h with ⟨s, -, hs⟩
  exact TraceEntry.noConfusion hs

/-- C1: a request whose `x-vortex-signature` header is array-valued (two or
more values) is answered `400` with `Multiple X-Vortex-Signature headers
are not allowed`, unconditionally — in particular even if one of the
values would have verified — and a request with no signature header is
answered `401` with `Missing X-Vortex-Signature header`; both branches
terminate before raw-body resolution, verification or any handler runs
(empty trace), so neither outcome can mask the other. -/
theorem c1_header_arity (w : VortexWebhooks) (hs : WebhookHandlers)
    (req req' : FastifyRequest) (vs : List (List Char))
    (hm : req.signatureHeader = HeaderVal.many vs)
    (hn : req'.signatureHeader = HeaderVal.missing) :
    createVortexWebhookHandler w hs req =
      ([], ⟨400, ResponseBody.errorBody "Multiple X-Vortex-Signature headers are not allowed"⟩) ∧
    createVortexWebhookHandler w hs req' =
      ([], ⟨401, ResponseBody.errorBody "Missing X-Vortex-Signature header"⟩) := by
  unfold createVortexWebhookHandler
  rw [hm, hn]
  exact ⟨rfl, rfl⟩

/-- C1 witness: a concrete double-valued-header request gets the `400`
multiplicity response — even though its second value is the correct
signature of its raw body — and a concrete headerless request gets the
`401` missing-header response. -/
theorem c1_header_arity_witness :
    (FastifyRequest.mk (HeaderVal.many [['a'], sign [2] [1]]) (some [2]) BodyVal.nonString).signatureHeader
        = HeaderVal.many [['a'], sign [2] [1]] ∧
    (FastifyRequest.mk HeaderVal.missing (some [2]) BodyVal.nonString).signatureHeader
        = HeaderVal.missing ∧
    createVortexWebhookHandler ⟨[1], fun _ => some sampleEvent⟩ ⟨none, [], false⟩
        (FastifyRequest.mk (HeaderVal.many [['a'], sign [2] [1]]) (some [2]) BodyVal.nonString) =
      ([], ⟨400, ResponseBody.errorBody "Multiple X-Vortex-Signature headers are not allowed"⟩) ∧
    createVortexWebhookHandler ⟨[1], fun _ => some sampleEvent⟩ ⟨none, [], false⟩
        (FastifyRequest.mk HeaderVal.missing (some [2]) BodyVal.nonString) =
      ([], ⟨401, ResponseBody.errorBody "Missing X-Vortex-Signature header"⟩) := by
  have h := c1_header_arity ⟨[1], fun _ => some sampleEvent⟩ ⟨none, [], false⟩
    (FastifyRequest.mk (HeaderVal.many [['a'], sign [2] [1]]) (some [2]) BodyVal.nonString)
    (FastifyRequest.mk HeaderVal.missing (some [2]) BodyVal.nonString)
    [['a'], sign [2] [1]] rfl rfl
  exact ⟨rfl, rfl, h.1, h.2⟩

/-- C10: a request whose `x-vortex-signature` header is present but equal
to the empty string is treated as missing — `401` with
`Missing X-Vortex-Signature header` — and nothing else runs (empty
trace): JavaScript `!signature` is true for the empty string. -/
theorem c10_empty_header (w : VortexWebhooks) (hs : WebhookHandlers)
    (req : FastifyRequest)
    (h : req.signatureHeader = HeaderVal.one []) :
    createVortexWebhookHandler w hs req =
      ([], ⟨401, ResponseBody.errorBody "Missing X-Vortex-Signature header"⟩) := by
  unfold createVortexWebhookHandler
  rw [h]
  rfl

/-- C10 witness: a concrete request with an empty-string signature header
and a perfectly resolvable raw body still gets the missing-header `401`. -/
theorem c10_empty_header_witness :
    (FastifyRequest.mk (HeaderVal.one []) (some [2]) BodyVal.nonString).signatureHeader
        = HeaderVal.one [] ∧
    createVortexWebhookHandler ⟨[1], fun _ => some sampleEvent⟩ ⟨none, [], false⟩
        (FastifyRequest.mk (HeaderVal.one []) (some [2]) BodyVal.nonString) =
      ([], ⟨401, ResponseBody.errorBody "Missing X-Vortex-Signature header"⟩) :=
  ⟨rfl, c10_empty_header _ _ _ rfl⟩

/-- C2: raw-payload resolution order — a captured `rawBody` wins and is
used verbatim whatever the parsed body is; failing that, a body the
transport left as a string is used; and when neither is available the
adapter answers `500` with the raw-body-unavailable message, with an
empty trace: verification and handlers never run, and no re-serialization
of a parsed body is attempted. -/
theorem c2_raw_body_resolution (w : VortexWebhooks) (hs : WebhookHandlers)
    (req req' req'' : FastifyRequest) (raw s : List Nat) (sig : List Char)
    (h1 : req.rawBody = some raw)
    (h2 : req'.rawBody = none) (h3 : req'.body = BodyVal.strBody s)
    (h4 : req''.rawBody = none) (h5 : req''.body = BodyVal.nonString)
    (h6 : req''.signatureHeader = HeaderVal.one sig) (h7 : sig.isEmpty = false) :
    resolveRawBody req = some raw ∧
    resolveRawBody req' = some s ∧
    createVortexWebhookHandler w hs req'' =
      ([], ⟨500, ResponseBody.errorBody rawBodyUnavailableMsg⟩) := by
  refine ⟨?_, ?_, ?_⟩
  · unfold resolveRawBody
    rw [h1]
  · unfold resolveRawBody
    rw [h2, h3]
  · have hres : resolveRawBody req'' = none := by
      unfold resolveRawBody
      rw [h4, h5]
    simp only [createVortexWebhookHandler, h6, h7, hres, Bool.false_eq_true, if_false]

/-- C2 witness: concrete requests exercising all three resolution
branches — captured raw body present, string body fallback, and neither
(parsed object only), the last answered `500` without any processing. -/
theorem c2_raw_body_resolution_witness :
    (FastifyRequest.mk (HeaderVal.one ['z']) (some [7]) (BodyVal.strBody [9])).rawBody = some [7] ∧
    (FastifyRequest.mk (HeaderVal.one ['z']) none (BodyVal.strBody [9])).rawBody = none ∧
    (FastifyRequest.mk (HeaderVal.one ['z']) none (BodyVal.strBody [9])).body = BodyVal.strBody [9] ∧
    (FastifyRequest.mk (HeaderVal.one ['z']) none BodyVal.nonString).rawBody = none ∧
    (FastifyRequest.mk (HeaderVal.one ['z']) none BodyVal.nonString).body = BodyVal.nonString ∧
    (FastifyRequest.mk (HeaderVal.one ['z']) none BodyVal.nonString).signatureHeader
        = HeaderVal.one ['z'] ∧
    (['z'] : List Char).isEmpty = false ∧
    resolveRawBody (FastifyRequest.mk (HeaderVal.one ['z']) (some [7]) (BodyVal.strBody [9]))
        = some [7] ∧
    resolveRawBody (FastifyRequest.mk (HeaderVal.one ['z']) none (BodyVal.strBody [9])) = some [9] ∧
    createVortexWebhookHandler ⟨[1], fun _ => some sampleEvent⟩ ⟨none, [], false⟩
        (FastifyRequest.mk (HeaderVal.one ['z']) none BodyVal.nonString) =
      ([], ⟨500, ResponseBody.errorBody rawBodyUnavailableMsg⟩) := by
  have h := c2_raw_body_resolution ⟨[1], fun _ => some sampleEvent⟩ ⟨none, [], false⟩
    (FastifyRequest.mk (HeaderVal.one ['z']) (some [7]) (BodyVal.strBody [9]))
    (FastifyRequest.mk (HeaderVal.one ['z']) none (BodyVal.strBody [9]))
    (FastifyRequest.mk (HeaderVal.one ['z']) none BodyVal.nonString)
    [7] [9] ['z'] rfl rfl rfl rfl rfl rfl rfl
  exact ⟨rfl, rfl, rfl, rfl, rfl, rfl, rfl, h.1, h.2.1, h.2.2⟩

/-- C8: every delivery produces exactly one of the six terminal responses
of the section 4.5 state machine — `400` multiple-headers, `401`
missing-header, `500` raw-body-unavailable, `401` invalid-signature,
`500` handler-error, or `200` received — whatever the request, the
handler configuration, the decoder, and whatever the registered handlers
throw: every enumerated error is converted to a response at the adapter
and none escapes. -/
theorem c8_all_errors_become_responses (w : VortexWebhooks) (hs : WebhookHandlers)
    (req : FastifyRequest) :
    (createVortexWebhookHandler w hs req).2 =
        ⟨400, ResponseBody.errorBody "Multiple X-Vortex-Signature headers are not allowed"⟩ ∨
    (createVortexWebhookHandler w hs req).2 =
        ⟨401, ResponseBody.errorBody "Missing X-Vortex-Signature header"⟩ ∨
    (createVortexWebhookHandler w hs req).2 =
        ⟨500, ResponseBody.errorBody rawBodyUnavailableMsg⟩ ∨
    (createVortexWebhookHandler w hs req).2 =
        ⟨401, ResponseBody.errorBody "Invalid signature"⟩ ∨
    (createVortexWebhookHandler w hs req).2 =
        ⟨500, ResponseBody.errorBody "Webhook handler error"⟩ ∨
    (createVortexWebhookHandler w hs req).2 = ⟨200, ResponseBody.receivedTrue⟩ := by
  cases hh : req.signatureHeader with
  | many vs => simp [createVortexWebhookHandler, hh]
  | missing => simp [createVortexWebhookHandler, hh]
  | one s =>
    cases he : s.isEmpty with
    | true => simp [createVortexWebhookHandler, hh, he]
    | false =>
      cases hres : resolveRawBody req with
      | none => simp [createVortexWebhookHandler, hh, he, hres]
      | some raw =>
        cases hc : constructEvent w raw s with
        | error err =>
          rcases catchBranch_cases hs err with hcb | hcb <;>
            simp [createVortexWebhookHandler, hh, he, hres, hc, hcb]
        | ok event =>
          rcases hdisp : handleEvent event hs with ⟨t, oerr⟩
          cases oerr with
          | none => simp [createVortexWebhookHandler, hh, he, hres, hc, hdisp]
          | some err =>
            rcases catchBranch_cases hs err with hcb | hcb <;>
              simp [createVortexWebhookHandler, hh, he, hres, hc, hdisp, hcb]

theorem handler_run_eq (w : VortexWebhooks) (hs : WebhookHandlers) (req : FastifyRequest)
    (s : List Char) (raw : List Nat)
    (hh : req.signatureHeader = HeaderVal.one s) (hne : s.isEmpty = false)
    (hres : resolveRawBody req = some raw) :
    createVortexWebhookHandler w hs req =
      (match constructEvent w raw s with
       | Except.error err => catchBranch hs err
       | Except.ok event =>
         match handleEvent event hs with
         | (t, none) => (t, ⟨200, ResponseBody.receivedTrue⟩)
         | (t, some err) => (t ++ (catchBranch hs err).1, (catchBranch hs err).2)) := by
  simp only [createVortexWebhookHandler, hh, hne, Bool.false_eq_true, if_false, hres]

/-- C3: when the single nonempty signature header does not verify against
the resolved raw body, event construction fails with an error named
`VortexWebhookSignatureError`, the adapter answers `401` with
`Invalid signature`, and — when an `onError` hook is registered — the
hook receives exactly that error before the response (the `errHook` entry
is the whole trace preceding the response). -/
theorem c3_invalid_signature (w : VortexWebhooks) (hs : WebhookHandlers) (req : FastifyRequest)
    (s : List Char) (raw : List Nat)
    (hh : req.signatureHeader = HeaderVal.one s) (hne : s.isEmpty = false)
    (hres : resolveRawBody req = some raw)
    (hv : verify raw s w.secret = false) :
    createVortexWebhookHandler w hs req =
      (onErrorTrace hs ⟨"VortexWebhookSignatureError", "Invalid signature"⟩,
       ⟨401, ResponseBody.errorBody "Invalid signature"⟩) ∧
    (hs.onError = true →
      TraceEntry.errHook ⟨"VortexWebhookSignatureError", "Invalid signature"⟩ ∈
        (createVortexWebhookHandler w hs req).1) := by
  have hc : constructEvent w raw s =
      Except.error ⟨"VortexWebhookSignatureError", "Invalid signature"⟩ := by
    simp [constructEvent, hv]
  have h1 : createVortexWebhookHandler w hs req =
      (onErrorTrace hs ⟨"VortexWebhookSignatureError", "Invalid signature"⟩,
       ⟨401, ResponseBody.errorBody "Invalid signature"⟩) := by
    simp only [handler_run_eq w hs req s raw hh hne hres, hc]
    simp [catchBranch]
  refine ⟨h1, fun hreg => ?_⟩
  rw [h1]
  simp [onErrorTrace, hreg]

/-- C3 witness: a concrete request with the short (hence non-verifying)
signature `z` over raw body `[2]`, with an `onError` hook registered, is
answered `401 Invalid signature` and the hook sees the signature error. -/
theorem c3_invalid_signature_witness :
    (FastifyRequest.mk (HeaderVal.one ['z']) (some [2]) BodyVal.nonString).signatureHeader
        = HeaderVal.one ['z'] ∧
    (['z'] : List Char).isEmpty = false ∧
    resolveRawBody (FastifyRequest.mk (HeaderVal.one ['z']) (some [2]) BodyVal.nonString)
        = some [2] ∧
    verify [2] ['z'] [1] = false ∧
    (createVortexWebhookHandler ⟨[1], fun _ => some sampleEvent⟩
          ⟨none, [], true⟩ (FastifyRequest.mk (HeaderVal.one ['z']) (some [2]) BodyVal.nonString) =
        (onErrorTrace ⟨none, [], true⟩ ⟨"VortexWebhookSignatureError", "Invalid signature"⟩,
         ⟨401, ResponseBody.errorBody "Invalid signature"⟩) ∧
      ((⟨none, [], true⟩ : WebhookHandlers).onError = true →
        TraceEntry.errHook ⟨"VortexWebhookSignatureError", "Invalid signature"⟩ ∈
          (createVortexWebhookHandler ⟨[1], fun _ => some sampleEvent⟩
            ⟨none, [], true⟩
            (FastifyRequest.mk (HeaderVal.one ['z']) (some [2]) BodyVal.nonString)).1)) := by
  refine ⟨rfl, rfl, rfl, verify_of_length_ne [2] ['z'] [1] (by decide), ?_⟩
  exact c3_invalid_signature ⟨[1], fun _ => some sampleEvent⟩ ⟨none, [], true⟩
    (FastifyRequest.mk (HeaderVal.one ['z']) (some [2]) BodyVal.nonString) ['z'] [2]
    rfl rfl rfl (verify_of_length_ne [2] ['z'] [1] (by decide))

/-- C4 counterexample: a request that passes signature verification and
whose registered type-specific handler throws during dispatch — but with
an error whose `name` field is `VortexWebhookSignatureError` — is
answered `401 Invalid signature`, not `500 Webhook handler error`: the
adapter's catch block discriminates only on the error name, so a handler
throw is not always reported as `500`. -/
theorem c4_counterexample :
    (handleEvent sampleEvent
        ⟨none, [("invitation.accepted",
                 fun _ => ([], some ⟨"VortexWebhookSignatureError", "spoof"⟩))], false⟩).2
      = some ⟨"VortexWebhookSignatureError", "spoof"⟩ ∧
    (createVortexWebhookHandler ⟨[1], fun _ => some sampleEvent⟩
        ⟨none, [("invitation.accepted",
                 fun _ => ([], some ⟨"VortexWebhookSignatureError", "spoof"⟩))], false⟩
        (FastifyRequest.mk (HeaderVal.one (sign [2] [1])) (some [2]) BodyVal.nonString)).2
      = ⟨401, ResponseBody.errorBody "Invalid signature"⟩ := by
  constructor
  · rfl
  · have hc : constructEvent ⟨[1], fun _ => some sampleEvent⟩ [2] (sign [2] [1])
        = Except.ok sampleEvent := by
      simp [constructEvent, verify_sign]
    rw [handler_run_eq ⟨[1], fun _ => some sampleEvent⟩
        ⟨none, [("invitation.accepted",
                 fun _ => ([], some ⟨"VortexWebhookSignatureError", "spoof"⟩))], false⟩
        (FastifyRequest.mk (HeaderVal.one (sign [2] [1])) (some [2]) BodyVal.nonString)
        (sign [2] [1]) [2] rfl (sign_isEmpty [2] [1]) rfl, hc]
    rfl

/-- C4 (amended): when a verified event's dispatch fails with a handler
error whose name is not `VortexWebhookSignatureError`, the adapter
answers `500` with `Webhook handler error` and, when an `onError` hook is
registered, the hook has been invoked with the underlying handler error
(the dispatcher offers the error to `onError` before propagating it); a
handler error carrying the reserved signature-error name is instead
reported as `401 Invalid signature`. -/
theorem c4_handler_error (w : VortexWebhooks) (hs : WebhookHandlers) (req : FastifyRequest)
    (s : List Char) (raw : List Nat) (event : WebhookEvent)
    (t : List TraceEntry) (err : JsError)
    (hh : req.signatureHeader = HeaderVal.one s) (hne : s.isEmpty = false)
    (hres : resolveRawBody req = some raw)
    (hv : verify raw s w.secret = true)
    (hd : w.decode raw = some event)
    (hdisp : handleEvent event hs = (t, some err))
    (hname : err.name ≠ "VortexWebhookSignatureError") :
    createVortexWebhookHandler w hs req =
      (t, ⟨500, ResponseBody.errorBody "Webhook handler error"⟩) ∧
    (hs.onError = true → TraceEntry.errHook err ∈ t) := by
  have hc : constructEvent w raw s = Except.ok event := by
    simp [constructEvent, hv, hd]
  have hcb : catchBranch hs err = ([], ⟨500, ResponseBody.errorBody "Webhook handler error"⟩) := by
    simp [catchBranch, hname]
  constructor
  · simp only [handler_run_eq w hs req s raw hh hne hres, hc, hdisp, hcb, List.append_nil]
  · exact fun hreg => handleEvent_errHook event hs t err hdisp hreg

/-- C4 witness: a verified concrete delivery whose registered handler for
`invitation.accepted` performs a side effect and then throws an ordinary
`Error` is answered `500 Webhook handler error`, and the registered
`onError` hook receives that error. -/
theorem c4_handler_error_witness :
    (FastifyRequest.mk (HeaderVal.one (sign [2] [1])) (some [2]) BodyVal.nonString).signatureHeader
        = HeaderVal.one (sign [2] [1]) ∧
    (sign [2] [1]).isEmpty = false ∧
    resolveRawBody (FastifyRequest.mk (HeaderVal.one (sign [2] [1])) (some [2]) BodyVal.nonString)
        = some [2] ∧
    verify [2] (sign [2] [1]) [1] = true ∧
    handleEvent sampleEvent
        ⟨none, [("invitation.accepted", fun _ => (["wrote"], some ⟨"Error", "boom"⟩))], true⟩ =
      ([TraceEntry.call (Slot.specific "invitation.accepted") sampleEvent,
        TraceEntry.eff "wrote", TraceEntry.errHook ⟨"Error", "boom"⟩],
       some ⟨"Error", "boom"⟩) ∧
    (⟨"Error", "boom"⟩ : JsError).name ≠ "VortexWebhookSignatureError" ∧
    (createVortexWebhookHandler ⟨[1], fun _ => some sampleEvent⟩
        ⟨none, [("invitation.accepted", fun _ => (["wrote"], some ⟨"Error", "boom"⟩))], true⟩
        (FastifyRequest.mk (HeaderVal.one (sign [2] [1])) (some [2]) BodyVal.nonString) =
      ([TraceEntry.call (Slot.specific "invitation.accepted") sampleEvent,
        TraceEntry.eff "wrote", TraceEntry.errHook ⟨"Error", "boom"⟩],
       ⟨500, ResponseBody.errorBody "Webhook handler error"⟩) ∧
     ((⟨none, [("invitation.accepted", fun _ => (["wrote"], some ⟨"Error", "boom"⟩))],
         true⟩ : WebhookHandlers).onError = true →
       TraceEntry.errHook ⟨"Error", "boom"⟩ ∈
         [TraceEntry.call (Slot.specific "invitation.accepted") sampleEvent,
          TraceEntry.eff "wrote", TraceEntry.errHook ⟨"Error", "boom"⟩])) := by
  refine ⟨rfl, sign_isEmpty [2] [1], rfl, verify_sign [2] [1], rfl, by decide, ?_⟩
  exact c4_handler_error ⟨[1], fun _ => some sampleEvent⟩
    ⟨none, [("invitation.accepted", fun _ => (["wrote"], some ⟨"Error", "boom"⟩))], true⟩
    (FastifyRequest.mk (HeaderVal.one (sign [2] [1])) (some [2]) BodyVal.nonString)
    (sign [2] [1]) [2] sampleEvent
    [TraceEntry.call (Slot.specific "invitation.accepted") sampleEvent,
     TraceEntry.eff "wrote", TraceEntry.errHook ⟨"Error", "boom"⟩]
    ⟨"Error", "boom"⟩
    rfl (sign_isEmpty [2] [1]) rfl (verify_sign [2] [1]) rfl rfl (by decide)

theorem count_call_map_eff (l : List String) (sl : Slot) (e : WebhookEvent) :
    (l.map TraceEntry.eff).count (TraceEntry.call sl e) = 0 :=
  count_map_eff l _ (fun s => by simp)

/-- C5: a request with exactly one signature header equal to the correct
HMAC-SHA-256 hex digest of the resolved raw body, whose payload decodes
to an event with a registered type-specific handler, and whose registered
handlers all return without throwing, is answered `200` with
`received: true`, and the type-specific handler is invoked exactly once,
with the parsed event. -/
theorem c5_success (w : VortexWebhooks) (hs : WebhookHandlers) (req : FastifyRequest)
    (raw : List Nat) (event : WebhookEvent) (sp : HandlerFn) (effs : List String)
    (hh : req.signatureHeader = HeaderVal.one (sign raw w.secret))
    (hres : resolveRawBody req = some raw)
    (hd : w.decode raw = some event)
    (hl : hs.onMap.lookup event.type = some sp)
    (hsp : sp event = (effs, none))
    (hg : ∀ g, hs.onEvent = some g → (g event).2 = none) :
    (createVortexWebhookHandler w hs req).2 = ⟨200, ResponseBody.receivedTrue⟩ ∧
    (createVortexWebhookHandler w hs req).1.count
        (TraceEntry.call (Slot.specific event.type) event) = 1 := by
  have hc : constructEvent w raw (sign raw w.secret) = Except.ok event := by
    simp [constructEvent, verify_sign, hd]
  have hrun := handler_run_eq w hs req (sign raw w.secret) raw hh (sign_isEmpty raw w.secret) hres
  cases hoe : hs.onEvent with
  | none =>
    have hdisp : handleEvent event hs =
        (TraceEntry.call (Slot.specific event.type) event :: effs.map TraceEntry.eff, none) := by
      simp [handleEvent, hoe, hl, runHandler, hsp]
    simp [hrun, hc, hdisp, List.count_cons, count_call_map_eff]
  | some g =>
    rcases hge : g event with ⟨gl, ger⟩
    have hger : ger = none := by
      have h := hg g hoe
      rwa [hge] at h
    subst hger
    have hdisp : handleEvent event hs =
        ((TraceEntry.call Slot.generic event :: gl.map TraceEntry.eff) ++
         (TraceEntry.call (Slot.specific event.type) event :: effs.map TraceEntry.eff), none) := by
      simp [handleEvent, hoe, hl, runHandler, hge, hsp]
    simp [hrun, hc, hdisp, List.count_append, List.count_cons, count_call_map_eff]

/-- C5 witness: a concrete correctly-signed delivery of
`invitation.accepted` with a registered type-specific handler completes
`200 received: true` with that handler called exactly once on the event. -/
theorem c5_success_witness :
    (FastifyRequest.mk (HeaderVal.one (sign [2] [1])) (some [2]) BodyVal.nonString).signatureHeader
        = HeaderVal.one (sign [2] (VortexWebhooks.mk [1] (fun _ => some sampleEvent)).secret) ∧
    resolveRawBody (FastifyRequest.mk (HeaderVal.one (sign [2] [1])) (some [2]) BodyVal.nonString)
        = some [2] ∧
    (VortexWebhooks.mk [1] (fun _ => some sampleEvent)).decode [2] = some sampleEvent ∧
    (WebhookHandlers.mk none [("invitation.accepted", fun _ => (["ok"], none))]
        false).onMap.lookup sampleEvent.type = some (fun _ => (["ok"], none)) ∧
    (fun (_ : WebhookEvent) => ((["ok"] : List String), (none : Option JsError))) sampleEvent
        = (["ok"], none) ∧
    (∀ g, (WebhookHandlers.mk none [("invitation.accepted", fun _ => (["ok"], none))]
        false).onEvent = some g → (g sampleEvent).2 = none) ∧
    ((createVortexWebhookHandler (VortexWebhooks.mk [1] (fun _ => some sampleEvent))
        (WebhookHandlers.mk none [("invitation.accepted", fun _ => (["ok"], none))] false)
        (FastifyRequest.mk (HeaderVal.one (sign [2] [1])) (some [2]) BodyVal.nonString)).2
      = ⟨200, ResponseBody.receivedTrue⟩ ∧
     (createVortexWebhookHandler (VortexWebhooks.mk [1] (fun _ => some sampleEvent))
        (WebhookHandlers.mk none [("invitation.accepted", fun _ => (["ok"], none))] false)
        (FastifyRequest.mk (HeaderVal.one (sign [2] [1])) (some [2]) BodyVal.nonString)).1.count
        (TraceEntry.call (Slot.specific sampleEvent.type) sampleEvent) = 1) := by
  refine ⟨rfl, rfl, rfl, rfl, rfl, ?_, ?_⟩
  · intro g h
    exact nomatch h
  exact c5_success (VortexWebhooks.mk [1] (fun _ => some sampleEvent))
    (WebhookHandlers.mk none [("invitation.accepted", fun _ => (["ok"], none))] false)
    (FastifyRequest.mk (HeaderVal.one (sign [2] [1])) (some [2]) BodyVal.nonString)
    [2] sampleEvent (fun _ => (["ok"], none)) ["ok"]
    rfl rfl rfl rfl rfl (fun g h => nomatch h)

/-- C6 counterexample: with both a generic and a matching type-specific
handler registered, a generic handler that throws an error named
`VortexWebhookSignatureError` is answered `401 Invalid signature`, not
the `500` the claim promises for the throwing-generic scenario (the
ordering part of the claim is unaffected: the generic side effect was
still observed before the error handling). -/
theorem c6_counterexample :
    (handleEvent sampleEvent
        ⟨some (fun _ => (["generic"], some ⟨"VortexWebhookSignatureError", "boom"⟩)),
         [("invitation.accepted", fun _ => (["specific"], none))], false⟩).2
      = some ⟨"VortexWebhookSignatureError", "boom"⟩ ∧
    (createVortexWebhookHandler ⟨[1], fun _ => some sampleEvent⟩
        ⟨some (fun _ => (["generic"], some ⟨"VortexWebhookSignatureError", "boom"⟩)),
         [("invitation.accepted", fun _ => (["specific"], none))], false⟩
        (FastifyRequest.mk (HeaderVal.one (sign [2] [1])) (some [2]) BodyVal.nonString)).2
      = ⟨401, ResponseBody.errorBody "Invalid signature"⟩ := by
  constructor
  · rfl
  · have hc : constructEvent ⟨[1], fun _ => some sampleEvent⟩ [2] (sign [2] [1])
        = Except.ok sampleEvent := by
      simp [constructEvent, verify_sign]
    rw [handler_run_eq ⟨[1], fun _ => some sampleEvent⟩
        ⟨some (fun _ => (["generic"], some ⟨"VortexWebhookSignatureError", "boom"⟩)),
         [("invitation.accepted", fun _ => (["specific"], none))], false⟩
        (FastifyRequest.mk (HeaderVal.one (sign [2] [1])) (some [2]) BodyVal.nonString)
        (sign [2] [1]) [2] rfl (sign_isEmpty [2] [1]) rfl, hc]
    rfl

/-- C6 (amended): with a generic handler and a type-specific handler both
registered for a verified event's type, the delivery's whole observable
behaviour is: the generic handler is invoked first and runs to
completion; if it returns normally the type-specific handler is invoked
next and runs to completion; both traces precede the response, which is
`200 received: true` when neither throws; when a handler throws, the
later handler is not invoked, the throwing handler's side effects are
already in the trace before the `onError` notification and the error
response, and that response is `500 Webhook handler error` — unless the
thrown error is named `VortexWebhookSignatureError`, in which case it is
`401 Invalid signature` (the first conjunct fixes the catch mapping). -/
theorem c6_dispatch_ordering (w : VortexWebhooks) (hs : WebhookHandlers) (req : FastifyRequest)
    (s : List Char) (raw : List Nat) (event : WebhookEvent)
    (g sp : HandlerFn) (gl sl : List String) (ger serr : Option JsError)
    (hh : req.signatureHeader = HeaderVal.one s) (hne : s.isEmpty = false)
    (hres : resolveRawBody req = some raw)
    (hv : verify raw s w.secret = true)
    (hd : w.decode raw = some event)
    (hg : hs.onEvent = some g)
    (hl : hs.onMap.lookup event.type = some sp)
    (hge : g event = (gl, ger))
    (hsp : sp event = (sl, serr)) :
    (∀ err : JsError, catchBranch hs err =
        if err.name = "VortexWebhookSignatureError" then
          (onErrorTrace hs err, ⟨401, ResponseBody.errorBody "Invalid signature"⟩)
        else ([], ⟨500, ResponseBody.errorBody "Webhook handler error"⟩)) ∧
    createVortexWebhookHandler w hs req =
      (match ger with
       | some err =>
         ((TraceEntry.call Slot.generic event :: gl.map TraceEntry.eff)
             ++ onErrorTrace hs err ++ (catchBranch hs err).1,
          (catchBranch hs err).2)
       | none =>
         match serr with
         | some err =>
           ((TraceEntry.call Slot.generic event :: gl.map TraceEntry.eff)
               ++ (TraceEntry.call (Slot.specific event.type) event :: sl.map TraceEntry.eff)
               ++ onErrorTrace hs err ++ (catchBranch hs err).1,
            (catchBranch hs err).2)
         | none =>
           ((TraceEntry.call Slot.generic event :: gl.map TraceEntry.eff)
               ++ (TraceEntry.call (Slot.specific event.type) event :: sl.map TraceEntry.eff),
            ⟨200, ResponseBody.receivedTrue⟩)) := by
  have hc : constructEvent w raw s = Except.ok event := by
    simp [constructEvent, hv, hd]
  have hrun := handler_run_eq w hs req s raw hh hne hres
  refine ⟨fun err => catchBranch_eq hs err, ?_⟩
  cases ger with
  | some err =>
    have hdisp : handleEvent event hs =
        ((TraceEntry.call Slot.generic event :: gl.map TraceEntry.eff)
            ++ onErrorTrace hs err, some err) := by
      simp [handleEvent, hg, runHandler, hge]
    simp [hrun, hc, hdisp, List.append_assoc]
  | none =>
    cases serr with
    | some err =>
      have hdisp : handleEvent event hs =
          ((TraceEntry.call Slot.generic event :: gl.map TraceEntry.eff)
              ++ (TraceEntry.call (Slot.specific event.type) event :: sl.map TraceEntry.eff)
              ++ onErrorTrace hs err, some err) := by
        simp [handleEvent, hg, hl, runHandler, hge, hsp, List.append_assoc]
      simp [hrun, hc, hdisp, List.append_assoc]
    | none =>
      have hdisp : handleEvent event hs =
          ((TraceEntry.call Slot.generic event :: gl.map TraceEntry.eff)
              ++ (TraceEntry.call (Slot.specific event.type) event :: sl.map TraceEntry.eff),
           none) := by
        simp [handleEvent, hg, hl, runHandler, hge, hsp]
      simp [hrun, hc, hdisp]

/-- C6 witness: a concrete verified delivery with a generic handler
logging `generic` and a type-specific handler logging `specific`, both
returning normally, produces exactly the trace generic-call,
`generic`, specific-call, `specific` followed by the `200` response. -/
theorem c6_dispatch_ordering_witness :
    (FastifyRequest.mk (HeaderVal.one (sign [2] [1])) (some [2]) BodyVal.nonString).signatureHeader
        = HeaderVal.one (sign [2] [1]) ∧
    (sign [2] [1]).isEmpty = false ∧
    resolveRawBody (FastifyRequest.mk (HeaderVal.one (sign [2] [1])) (some [2]) BodyVal.nonString)
        = some [2] ∧
    verify [2] (sign [2] [1]) [1] = true ∧
    (createVortexWebhookHandler ⟨[1], fun _ => some sampleEvent⟩
        ⟨some (fun _ => (["generic"], none)),
         [("invitation.accepted", fun _ => (["specific"], none))], false⟩
        (FastifyRequest.mk (HeaderVal.one (sign [2] [1])) (some [2]) BodyVal.nonString) =
      ((TraceEntry.call Slot.generic sampleEvent :: [("generic" : String)].map TraceEntry.eff)
          ++ (TraceEntry.call (Slot.specific sampleEvent.type) sampleEvent
              :: [("specific" : String)].map TraceEntry.eff),
       ⟨200, ResponseBody.receivedTrue⟩)) := by
  refine ⟨rfl, sign_isEmpty [2] [1], rfl, verify_sign [2] [1], ?_⟩
  exact (c6_dispatch_ordering ⟨[1], fun _ => some sampleEvent⟩
    ⟨some (fun _ => (["generic"], none)),
     [("invitation.accepted", fun _ => (["specific"], none))], false⟩
    (FastifyRequest.mk (HeaderVal.one (sign [2] [1])) (some [2]) BodyVal.nonString)
    (sign [2] [1]) [2] sampleEvent
    (fun _ => (["generic"], none)) (fun _ => (["specific"], none))
    ["generic"] ["specific"] none none
    rfl (sign_isEmpty [2] [1]) rfl (verify_sign [2] [1]) rfl rfl rfl rfl rfl).2

/-- C7 counterexample: a verified event whose type has no registered
type-specific handler is not always answered `200`: when a registered
generic handler throws, the delivery is answered `500 Webhook handler
error` and the registered `onError` hook is invoked — the claim's `200`
and no-`onError` promise only holds when no registered handler throws. -/
theorem c7_counterexample :
    (WebhookHandlers.mk (some (fun _ => ([], some ⟨"Error", "boom"⟩)))
        [] true).onMap.lookup sampleEvent.type = none ∧
    (createVortexWebhookHandler ⟨[1], fun _ => some sampleEvent⟩
        ⟨some (fun _ => ([], some ⟨"Error", "boom"⟩)), [], true⟩
        (FastifyRequest.mk (HeaderVal.one (sign [2] [1])) (some [2]) BodyVal.nonString)).2
      = ⟨500, ResponseBody.errorBody "Webhook handler error"⟩ ∧
    TraceEntry.errHook ⟨"Error", "boom"⟩ ∈
      (createVortexWebhookHandler ⟨[1], fun _ => some sampleEvent⟩
        ⟨some (fun _ => ([], some ⟨"Error", "boom"⟩)), [], true⟩
        (FastifyRequest.mk (HeaderVal.one (sign [2] [1])) (some [2]) BodyVal.nonString)).1 := by
  have hc : constructEvent ⟨[1], fun _ => some sampleEvent⟩ [2] (sign [2] [1])
      = Except.ok sampleEvent := by
    simp [constructEvent, verify_sign]
  have hrun := handler_run_eq ⟨[1], fun _ => some sampleEvent⟩
      ⟨some (fun _ => ([], some ⟨"Error", "boom"⟩)), [], true⟩
      (FastifyRequest.mk (HeaderVal.one (sign [2] [1])) (some [2]) BodyVal.nonString)
      (sign [2] [1]) [2] rfl (sign_isEmpty [2] [1]) rfl
  refine ⟨rfl, ?_, ?_⟩
  · rw [hrun, hc]
    rfl
  · rw [hrun, hc]
    simp [handleEvent, runHandler, onErrorTrace, catchBranch]

/-- C7 (amended): a verified event whose type has no registered
type-specific handler completes without error — `200 received: true`
with no `onError` invocation — provided the generic handler, when one is
registered, itself returns without throwing; the absence of a
type-specific handler is never by itself an error. -/
theorem c7_unknown_type (w : VortexWebhooks) (hs : WebhookHandlers) (req : FastifyRequest)
    (s : List Char) (raw : List Nat) (event : WebhookEvent)
    (hh : req.signatureHeader = HeaderVal.one s) (hne : s.isEmpty = false)
    (hres : resolveRawBody req = some raw)
    (hv : verify raw s w.secret = true)
    (hd : w.decode raw = some event)
    (hl : hs.onMap.lookup event.type = none)
    (hg : ∀ g, hs.onEvent = some g → (g event).2 = none) :
    (createVortexWebhookHandler w hs req).2 = ⟨200, ResponseBody.receivedTrue⟩ ∧
    ∀ e : JsError, TraceEntry.errHook e ∉ (createVortexWebhookHandler w hs req).1 := by
  have hc : constructEvent w raw s = Except.ok event := by
    simp [constructEvent, hv, hd]
  have hrun := handler_run_eq w hs req s raw hh hne hres
  cases hoe : hs.onEvent with
  | none =>
    have hdisp : handleEvent event hs = ([], none) := by
      simp [handleEvent, hoe, hl]
    simp only [hrun, hc, hdisp]
    exact ⟨by first | rfl | trivial, by simp⟩
  | some g =>
    rcases hge : g event with ⟨gl, ger⟩
    have hger : ger = none := by
      have h := hg g hoe
      rwa [hge] at h
    subst hger
    have hdisp : handleEvent event hs =
        (TraceEntry.call Slot.generic event :: gl.map TraceEntry.eff, none) := by
      simp [handleEvent, hoe, hl, runHandler, hge]
    simp only [hrun, hc, hdisp]
    refine ⟨by first | rfl | trivial, fun e he => ?_⟩
    rcases List.mem_cons.mp he with h | h
    · exact TraceEntry.noConfusion h
    · exact errHook_not_mem_map_eff gl e h

/-- C7 witness: a concrete verified delivery of an event type with no
registered type-specific handler (and a generic handler that logs and
returns) is answered `200 received: true` with no `onError` entry. -/
theorem c7_unknown_type_witness :
    (FastifyRequest.mk (HeaderVal.one (sign [2] [1])) (some [2]) BodyVal.nonString).signatureHeader
        = HeaderVal.one (sign [2] [1]) ∧
    (sign [2] [1]).isEmpty = false ∧
    resolveRawBody (FastifyRequest.mk (HeaderVal.one (sign [2] [1])) (some [2]) BodyVal.nonString)
        = some [2] ∧
    verify [2] (sign [2] [1]) [1] = true ∧
    (WebhookHandlers.mk (some (fun _ => (["audit"], none))) [("other.type",
        fun _ => ([], none))] true).onMap.lookup sampleEvent.type = none ∧
    ((createVortexWebhookHandler ⟨[1], fun _ => some sampleEvent⟩
        ⟨some (fun _ => (["audit"], none)), [("other.type", fun _ => ([], none))], true⟩
        (FastifyRequest.mk (HeaderVal.one (sign [2] [1])) (some [2]) BodyVal.nonString)).2
      = ⟨200, ResponseBody.receivedTrue⟩ ∧
     ∀ e : JsError, TraceEntry.errHook e ∉
      (createVortexWebhookHandler ⟨[1], fun _ => some sampleEvent⟩
        ⟨some (fun _ => (["audit"], none)), [("other.type", fun _ => ([], none))], true⟩
        (FastifyRequest.mk (HeaderVal.one (sign [2] [1])) (some [2]) BodyVal.nonString)).1) := by
  refine ⟨rfl, sign_isEmpty [2] [1], rfl, verify_sign [2] [1], rfl, ?_⟩
  exact c7_unknown_type ⟨[1], fun _ => some sampleEvent⟩
    ⟨some (fun _ => (["audit"], none)), [("other.type", fun _ => ([], none))], true⟩
    (FastifyRequest.mk (HeaderVal.one (sign [2] [1])) (some [2]) BodyVal.nonString)
    (sign [2] [1]) [2] sampleEvent
    rfl (sign_isEmpty [2] [1]) rfl (verify_sign [2] [1]) rfl rfl
    (fun g h => by cases h; rfl)

theorem digest_val_lt (s : List Nat) : byteVal (hmacSha256 s []) < 256 ^ 32 := by
  have h := byteVal_lt (hmacSha256 s []) (hmacSha256_lt s [])
  rwa [hmacSha256_length] at h

/-- C9 counterexample: the claim as stated is false.  The digest space is
finite (32 bytes) while the secret space is infinite, so by the
pigeonhole principle two distinct secrets produce the same HMAC digest of
some payload — and verification then accepts the signature under the
other secret, contradicting the claim's second conjunct.  (No explicit
colliding pair is feasible to exhibit, but the claim quantifies over all
secrets, so its universal rejection statement is mathematically false.) -/
theorem c9_counterexample : ¬ C9Claim := by
  intro h
  obtain ⟨s, s', hne, heq⟩ := Finite.exists_ne_map_eq_of_infinite
    (fun s : List Nat => (⟨byteVal (hmacSha256 s []), digest_val_lt s⟩ : Fin (256 ^ 32)))
  have hval : byteVal (hmacSha256 s []) = byteVal (hmacSha256 s' []) := by
    simpa using congrArg Fin.val heq
  have hd : hmacSha256 s [] = hmacSha256 s' [] := by
    refine byteVal_inj _ _ ?_ (hmacSha256_lt s []) (hmacSha256_lt s' []) hval
    rw [hmacSha256_length, hmacSha256_length]
  have hv : verify [] (sign [] s) s' = true := by
    unfold verify sign
    rw [← hd]
    exact ctEq_self _
  obtain ⟨-, h2, -⟩ := h [] s
  have hfalse := h2 s' (Ne.symm hne)
  rw [hv] at hfalse
  cases hfalse

/-- C9 (amended): signing is deterministic — verification under the
signing secret always succeeds — and verification of `sign p s` under a
secret `s'` (resp. of a single-byte mutation `p'` under `s`) succeeds
exactly when the HMAC digest coincides with that of `(p, s)`; for
HMAC-SHA-256 such a coincidence is expected never to occur for `s' ≠ s`
or `p' ≠ p`, but since the digest space is finite that universal
statement cannot hold and the precise condition is the digest equality. -/
theorem c9_sign_verify (p s s' p' : List Nat)
    (hmut : isSingleByteMutation p p' = true) :
    verify p (sign p s) s = true ∧
    (verify p (sign p s) s' = true ↔ hmacSha256 s' p = hmacSha256 s p) ∧
    (verify p' (sign p s) s = true ↔ hmacSha256 s p' = hmacSha256 s p) := by
  have key : ∀ k1 m1 k2 m2 : List Nat,
      (verify m1 (sign m2 k2) k1 = true ↔ hmacSha256 k1 m1 = hmacSha256 k2 m2) := by
    intro k1 m1 k2 m2
    unfold verify sign
    rw [ctEq_eq]
    constructor
    · intro h
      exact hexEncode_inj _ _ (hmacSha256_lt _ _) (hmacSha256_lt _ _) h
    · intro h
      rw [h]
  exact ⟨verify_sign p s, key s' p s p, key s p' s p⟩

/-- C9 witness: at the concrete payload `[0]`, secret `[5]`, foreign
secret `[6]` and single-byte mutation `[1]`, the mutation predicate holds
and the amended determinism and rejection conditions are established. -/
theorem c9_sign_verify_witness :
    isSingleByteMutation [0] [1] = true ∧
    (verify [0] (sign [0] [5]) [5] = true ∧
     (verify [0] (sign [0] [5]) [6] = true ↔ hmacSha256 [6] [0] = hmacSha256 [5] [0]) ∧
     (verify [1] (sign [0] [5]) [5] = true ↔ hmacSha256 [5] [1] = hmacSha256 [5] [0])) :=
  ⟨by decide, c9_sign_verify [0] [5] [6] [1] (by decide)⟩

set_option maxRecDepth 400000 in
/-- Validation of the SHA-256 embedding against the FIPS 180-4 test
vector for the message `abc`. -/
theorem sha256_fips_vector :
    hexEncode (sha256 [97, 98, 99]) =
      "ba7816bf8f01cfea414140de5dae2223b00361a396177a9cb410ff61f20015ad".toList := by
  decide

set_option maxRecDepth 800000 in
/-- Validation of the HMAC-SHA-256 embedding against the well-known
`key` and quick-brown-fox test vector. -/
theorem hmacSha256_fox_vector :
    sign ("The quick brown fox jumps over the lazy dog".toList.map Char.toNat)
        ("key".toList.map Char.toNat) =
      "f7bc83f430538424b13298e6aa6fb143ef4d59a14946175997479dbc2d1a3cd8".toList := by
  decide
